import Mathlib

/-!
Verification development for the `twillio-sendgrid-backend` repository.

The definitions below are a shallow embedding of `services/TwilioSendGrid.js`
and `config/emailTemplatesMap.js`.  Remote HTTP interactions are modelled by
explicit oracle / environment parameters describing the remote responses, and
every embedded operation additionally returns the list of remote requests it
issued, in order, so that "no remote call was made" is an observable fact.
-/

/-! ## JavaScript runtime values

A small model of the JavaScript values that flow through the service:
`dynamicTemplateData` fields and contact custom-field values.  `undef`
models `undefined`.  Numbers are modelled as integers (no claim depends on
floating point).  Plain objects are not needed by any claim and are omitted;
array elements are kept so that `Array.isArray` is about real arrays. -/

inductive JsValue where
  | null
  | undef
  | str (s : String)
  | bool (b : Bool)
  | num (n : Int)
  | arr (elems : List JsValue)

mutual

/-- Structural equality on `JsValue`, modelling JavaScript `===` on the
primitive values the service actually compares (strings and booleans). -/
def JsValue.beq : JsValue → JsValue → Bool
  | .null, .null => true
  | .undef, .undef => true
  | .str a, .str b => a == b
  | .bool a, .bool b => a == b
  | .num a, .num b => a == b
  | .arr a, .arr b => JsValue.beqList a b
  | _, _ => false

def JsValue.beqList : List JsValue → List JsValue → Bool
  | [], [] => true
  | x :: xs, y :: ys => JsValue.beq x y && JsValue.beqList xs ys
  | _, _ => false

end

instance : BEq JsValue := ⟨JsValue.beq⟩

/-- `typeof v === "string"` -/
def JsValue.isString : JsValue → Bool
  | .str _ => true
  | _ => false

/-- `typeof v === "boolean"` -/
def JsValue.isBool : JsValue → Bool
  | .bool _ => true
  | _ => false

/-- `Array.isArray(v)` -/
def JsValue.isArray : JsValue → Bool
  | .arr _ => true
  | _ => false

/-! ## Email validation

`_isValidEmail` in the source is
`const emailRegex = /^[^\s@]+@[^\s@]+\.[^\s@]+$/; return emailRegex.test(email);`.

The regular expression accepts exactly the strings of the form
`A ++ "@" ++ B ++ "." ++ C` where `A`, `B`, `C` are nonempty and contain
neither whitespace nor `@` (note that `B` and `C` may contain further dots:
`[^\s@]` does not exclude `.`).  Since every character class excludes `@`,
the `@` of a matching string is its unique (hence first) `@`, and the
separating dot can be chosen as any dot of the `@`-suffix that is neither
its first nor its last character.  The executable definition below decides
exactly that language; the equivalence with the declarative decomposition
is proved in `isValidEmail_iff_emailShape`. -/

/-- JavaScript regular-expression whitespace class: the characters that
the regex token matching whitespace accepts (space, tab, line and paragraph
breaks, vertical tab, form feed, no-break and other Unicode spaces, BOM). -/
def isJsWs (c : Char) : Bool :=
  c.val = 0x20 || c.val = 0x09 || c.val = 0x0a || c.val = 0x0d ||
  c.val = 0x0b || c.val = 0x0c || c.val = 0xa0 || c.val = 0x1680 ||
  (0x2000 ≤ c.val && c.val ≤ 0x200a) ||
  c.val = 0x2028 || c.val = 0x2029 || c.val = 0x202f || c.val = 0x205f ||
  c.val = 0x3000 || c.val = 0xfeff

/-- The character class `[^\s@]` of the validator regex. -/
def emailOk (c : Char) : Bool := !(isJsWs c) && c != '@'

/-- Embedding of `TwilioSendGrid._isValidEmail` (the regex test, see above). -/
def isValidEmail (s : String) : Bool :=
  match s.toList.dropWhile (fun c => c != '@') with
  | '@' :: b =>
      let a := s.toList.takeWhile (fun c => c != '@')
      !a.isEmpty && a.all emailOk && !b.isEmpty && b.all emailOk &&
      ((b.drop 1).dropLast).contains '.'
  | _ => false

/-- The declarative form of the validator language: `local@domain.tld`
with no whitespace — a nonempty local part, an `@`, and a domain containing
an inner dot, all characters outside the regex's excluded class `[\s@]`. -/
def emailShape (s : String) : Prop :=
  ∃ a b c : List Char,
    s.toList = a ++ '@' :: (b ++ '.' :: c) ∧
    a ≠ [] ∧ b ≠ [] ∧ c ≠ [] ∧
    (∀ x ∈ a, emailOk x = true) ∧
    (∀ x ∈ b, emailOk x = true) ∧
    (∀ x ∈ c, emailOk x = true)

/-! ## Template registry (`config/emailTemplatesMap.js`) -/

structure TemplateConfig where
  templateId : String
  path : String
  supportsLooping : Bool
  requiredFields : List String
  description : String
  /-- In the shipped configuration every template declares `customFieldTypes`,
  so it is embedded as a total field. -/
  customFieldTypes : List (String × String)
deriving DecidableEq

/-- The `new-order-email` entry of the shipped template map. -/
def newOrderEmailConfig : TemplateConfig :=
  { templateId := "d-1234567890abcdef1234567890abcdef"
    path := "templates/new-order-email.html"
    supportsLooping := true
    requiredFields := ["order_id", "user_name", "items"]
    description := "Template for new order notifications with item loop"
    customFieldTypes :=
      [("order_id", "string"), ("user_name", "string"), ("items", "array")] }

/-- The `password-reset` entry of the shipped template map. -/
def passwordResetConfig : TemplateConfig :=
  { templateId := "d-abcdef1234567890abcdef1234567890"
    path := "templates/password-reset.html"
    supportsLooping := false
    requiredFields := ["reset_link", "user_email"]
    description := "Password reset email with single link"
    customFieldTypes := [("reset_link", "url"), ("user_email", "email")] }

/-- The `creator-broadcast` entry of the shipped template map. -/
def creatorBroadcastConfig : TemplateConfig :=
  { templateId := "d-broadcast00001234567890abc"
    path := "templates/creator-broadcast.html"
    supportsLooping := false
    requiredFields := ["creator_name", "message_body"]
    description := "Creator-wide message sent to subscribed fans"
    customFieldTypes := [("creator_name", "string"), ("message_body", "html")] }

/-- The shipped `EmailTemplateMap` object, as an ordered association list. -/
def EmailTemplateMap : List (String × TemplateConfig) :=
  [("new-order-email", newOrderEmailConfig),
   ("password-reset", passwordResetConfig),
   ("creator-broadcast", creatorBroadcastConfig)]

/-- JavaScript property read `obj[key]` on an object modelled as an
association list with unique keys (first match). -/
def objLookup (l : List (String × α)) (k : String) : Option α :=
  (l.find? (fun p => p.1 == k)).map (fun p => p.2)

/-- JavaScript property write `obj[key] = v`: replaces the value in place if
the key exists (keeping its position), otherwise appends the new entry. -/
def objSet (l : List (String × String)) (k v : String) : List (String × String) :=
  if l.any (fun p => p.1 == k) then
    l.map (fun p => if p.1 == k then (k, v) else p)
  else l ++ [(k, v)]

/-- Embedding of `buildFieldTypeFromEmailTemplateConfig`: folds every
template's `customFieldTypes` entries into one object via `acc[key] = type`.
The source also throws when a template lacks `customFieldTypes`; in the
embedding that field is total (every shipped template declares it), so the
builder cannot fail. -/
def buildFieldTypeFromEmailTemplateConfig : List (String × String) :=
  (EmailTemplateMap.map (fun p => p.2)).foldl
    (fun acc t => t.customFieldTypes.foldl (fun a q => objSet a q.1 q.2) acc) []

/-- Embedding of `_formatListNameForSender`. -/
def formatListNameForSender (senderId : String) : String :=
  "sender_" ++ senderId ++ "_list"

/-! ## Remote requests and errors

Each embedded operation returns, besides its result, the ordered list of
remote API requests it issued.  `RemoteErr` models a rejected remote call:
`errorMessages` is the optional chain `err.response?.body?.errors?` mapped to
its message strings, `message` is `err.message`, `statusCode` is
`err.response?.statusCode`. -/

inductive Request where
  | mailSend (toAddr fromAddr templateId : String)
      (dynamicTemplateData : List (String × JsValue))
      (cc bcc : Option (List String))
  | contactsUpsert (email : String) (listIds : Option (List String))
      (customFields : List (String × JsValue))
  | contactsSearch (email : String)
  | segmentCreate (name : String) (listIds : List String) (tagField : String)
  | singleSendCreate (templateId : String) (segmentId : Nat)
  | singleSendSchedule (campaignId : Nat) (sendAt : String)
  | listsFetch
  | listCreate (name : String)

structure RemoteErr where
  errorMessages : Option (List String)
  message : String
  statusCode : Option Nat

/-- `err.response?.body?.errors?.map((e) => e.message).join("; ") || fallback`:
the joined remote error messages if that chain produces a truthy (nonempty)
string, otherwise the fallback. -/
def joinedErrorsOr (e : RemoteErr) (fallback : String) : String :=
  match e.errorMessages with
  | some es =>
      let j := String.intercalate "; " es
      if j = "" then fallback else j
  | none => fallback

def isErr (r : Except ε α) : Bool :=
  match r with
  | .error _ => true
  | .ok _ => false

/-! ## `sendSimpleEmail` -/

/-- Arguments of `sendSimpleEmail`.  `cc`/`bcc` are the documented
`string[]` optional parameters (`none` models passing `undefined`). -/
structure SimpleArgs where
  toAddr : String
  fromAddr : String
  templateKey : String
  dynamicTemplateData : List (String × JsValue)
  cc : Option (List String)
  bcc : Option (List String)

/-- Outcome of the one remote call of `sendSimpleEmail`
(`sgMail.send`): `some m` means it rejects with `err.message = m`. -/
structure SendOutcome where
  sendError : Option String

/-- JavaScript `field in obj`. -/
def hasKey (l : List (String × JsValue)) (k : String) : Bool :=
  l.any (fun p => p.1 == k)

/-- One iteration of the custom-field type-check loop of `sendSimpleEmail`:
`expected` is `customFieldTypes[field]` (`none` models `undefined`; the
source guard `if (!expected) continue` also skips an empty-string type),
`null` values skip the check, and only the declared types `string`,
`boolean` and `array` are ever checked. -/
def typeCheckError (field : String) (expected : Option String) (v : JsValue) :
    Option String :=
  match expected with
  | none => none
  | some e =>
    if e = "" then none
    else if v matches .null then none
    else if e = "string" && !v.isString then
      some ("Invalid type for " ++ field ++ ": expected string")
    else if e = "boolean" && !v.isBool then
      some ("Invalid type for " ++ field ++ ": expected boolean")
    else if e = "array" && !v.isArray then
      some ("Invalid type for " ++ field ++ ": expected array")
    else none

/-- The `for (const [field, value] of Object.entries(dynamicTemplateData))`
loop: the first type error raised, if any. -/
def firstTypeError (cft : List (String × String)) :
    List (String × JsValue) → Option String
  | [] => none
  | (f, v) :: rest =>
    match typeCheckError f (objLookup cft f) v with
    | some m => some m
    | none => firstTypeError cft rest

/-- `cc && (!Array.isArray(cc) || cc.some((email) => !this._isValidEmail(email)))`
for a `string[]`-typed argument: an absent list is skipped, a present list is
invalid when some element fails the validator. -/
def ccListInvalid (o : Option (List String)) : Bool :=
  match o with
  | none => false
  | some l => l.any (fun e => !(isValidEmail e))

/-- Embedding of `sendSimpleEmail`.  On success the result is the message
payload handed to `sgMail.send`; each error branch carries the exact thrown
message.  The request trace shows that the only remote call is the final
`sgMail.send`, issued after every validation has passed. -/
def sendSimpleEmail (args : SimpleArgs) (outcome : SendOutcome) :
    Except String Request × List Request :=
  if !(isValidEmail args.toAddr) then
    (.error ("Invalid recipient email: " ++ args.toAddr), [])
  else if !(isValidEmail args.fromAddr) then
    (.error ("Invalid sender email: " ++ args.fromAddr), [])
  else if ccListInvalid args.cc then
    (.error "Invalid CC email list", [])
  else if ccListInvalid args.bcc then
    (.error "Invalid BCC email list", [])
  else
    match objLookup EmailTemplateMap args.templateKey with
    | none => (.error ("Unknown templateKey: " ++ args.templateKey), [])
    | some template =>
      let missing := template.requiredFields.filter
        (fun f => !(hasKey args.dynamicTemplateData f))
      if !missing.isEmpty then
        (.error ("Missing required template fields: " ++
          String.intercalate ", " missing), [])
      else
        match firstTypeError template.customFieldTypes args.dynamicTemplateData with
        | some m => (.error m, [])
        | none =>
          let msg := Request.mailSend args.toAddr args.fromAddr template.templateId
            args.dynamicTemplateData args.cc args.bcc
          match outcome.sendError with
          | some m => (.error ("Failed to send email: " ++ m), [msg])
          | none => (.ok msg, [msg])

/-! ## `sendCampaignEmail` -/

structure CampaignArgs where
  listId : String
  tag : String
  templateKey : String
  /-- `dynamicData.senderId`, used only in the segment name. -/
  senderId : String
  /-- `sendAt` (`none` models passing `undefined`). -/
  sendAt : Option String

/-- Remote responses for the three calls of `sendCampaignEmail`: segment
creation (returning `body.id`), single-send creation (returning `body.id`)
and scheduling. -/
structure CampaignOracle where
  segmentResult : Except RemoteErr Nat
  campaignResult : Except RemoteErr Nat
  scheduleResult : Except RemoteErr Unit

/-- A thrown JavaScript error: either an `Error` with a message, or the
`TypeError` raised by reading a property of `undefined`. -/
inductive JsError where
  | err (msg : String)
  | typeError

/-- `sendAt || "now"`: JavaScript falsy check on the scheduling argument. -/
def sendAtOrNow (o : Option String) : String :=
  match o with
  | some s => if s = "" then "now" else s
  | none => "now"

/-- Embedding of `sendCampaignEmail`.  Note the order of operations in the
source: the tag is validated against the merged field-type map before any
remote call, but the `templateKey` is only dereferenced
(`loadEmailTemplateConfig()[templateKey].templateId`) while building the
single-send request body — after the segment-creation request has already
been issued.  An unknown key therefore raises a `TypeError` at that point. -/
def sendCampaignEmail (args : CampaignArgs) (oracle : CampaignOracle) :
    Except JsError (Nat × Nat) × List Request :=
  let segmentName := "segment_" ++ args.listId ++ "_" ++ args.tag ++
    "__sender_" ++ args.senderId
  let mapping := buildFieldTypeFromEmailTemplateConfig
  match objLookup mapping args.tag with
  | none => (.error (.err ("Invalid tag: " ++ args.tag)), [])
  | some tagType =>
    if tagType = "" then (.error (.err ("Invalid tag: " ++ args.tag)), [])
    else
      let segReq := Request.segmentCreate segmentName [args.listId] args.tag
      match oracle.segmentResult with
      | .error e =>
          (.error (.err ("Failed to create segment: " ++ joinedErrorsOr e e.message)),
           [segReq])
      | .ok segmentId =>
        match objLookup EmailTemplateMap args.templateKey with
        | none => (.error .typeError, [segReq])
        | some template =>
          let campReq := Request.singleSendCreate template.templateId segmentId
          match oracle.campaignResult with
          | .error e => (.error (.err e.message), [segReq, campReq])
          | .ok campaignId =>
            let schedReq := Request.singleSendSchedule campaignId (sendAtOrNow args.sendAt)
            match oracle.scheduleResult with
            | .error e => (.error (.err e.message), [segReq, campReq, schedReq])
            | .ok _ => (.ok (campaignId, segmentId), [segReq, campReq, schedReq])

/-! ## `subscribeOrUnsubscribeRecipientFromSenderListByTag` -/

/-- A contact returned by the contact search; `custom_fields` may be absent
(the source reads it with `contact.custom_fields?.[field]`). -/
structure Contact where
  custom_fields : Option (List (String × JsValue))

/-- Remote responses for the two calls of the subscribe/unsubscribe
operation: the upsert `PUT` and the verification search (whose result is
`checkRes.body.result?.[0]`, `none` modelling no contact found). -/
structure SubOracle where
  upsertResult : Except RemoteErr Unit
  searchResult : Except RemoteErr (Option Contact)

/-- `Object.fromEntries(Object.keys(customFields).map((key) => [key, null]))`. -/
def clearedFields (customFields : List (String × JsValue)) :
    List (String × JsValue) :=
  customFields.map (fun p => (p.1, JsValue.null))

/-- `contact.custom_fields?.[field]` (`none` models `undefined`). -/
def currentFieldValue (contact : Contact) (field : String) : Option JsValue :=
  match contact.custom_fields with
  | none => none
  | some cf => objLookup cf field

/-- The verification-loop condition of the source for one entry of
`customFields`: subscribing fails when the re-read value differs from the
written one; unsubscribing fails when the re-read value is neither `null`
nor `undefined`. -/
def fieldVerifyFails (subscribe : Bool) (contact : Contact)
    (field : String) (v : JsValue) : Bool :=
  let current := currentFieldValue contact field
  if subscribe then !(current == some v)
  else
    match current with
    | none => false
    | some .null => false
    | some _ => true

/-- Embedding of `subscribeOrUnsubscribeRecipientFromSenderListByTag`.
All errors thrown inside the `try` block are re-wrapped by the `catch`
into `joinedErrorsOr` of the remote error, or the constant
`"Failed to update recipient fields"` for locally thrown errors (contact
not found, field not set, field not cleared), which have no `response`.
The search request is modelled as carrying the searched email (the source
builds the query string `email = <quoted email>` from it). -/
def subscribeOrUnsubscribeRecipientFromSenderListByTag
    (email listId : String) (customFields : List (String × JsValue))
    (subscribe : Bool) (oracle : SubOracle) :
    Except String Unit × List Request :=
  if !(isValidEmail email) then
    (.error ("Invalid email format: " ++ email), [])
  else
    let upsertReq := Request.contactsUpsert email
      (if subscribe then some [listId] else none)
      (if subscribe then customFields else clearedFields customFields)
    match oracle.upsertResult with
    | .error e =>
        (.error (joinedErrorsOr e "Failed to update recipient fields"), [upsertReq])
    | .ok _ =>
      let trace := [upsertReq, Request.contactsSearch email]
      match oracle.searchResult with
      | .error e =>
          (.error (joinedErrorsOr e "Failed to update recipient fields"), trace)
      | .ok none => (.error "Failed to update recipient fields", trace)
      | .ok (some contact) =>
        if customFields.any (fun p => fieldVerifyFails subscribe contact p.1 p.2) then
          (.error "Failed to update recipient fields", trace)
        else (.ok (), trace)

/-! ## `_withRetry`

The source loop runs `attempt = 1 .. retries`; on an error it rethrows
unless the error carries HTTP status 429 and the attempt is not the last,
in which case it sleeps `Math.min(delay * attempt, maxDelay)` and retries.
The embedding makes the attempt outcomes a function of the attempt number
and returns, besides the final result, the list of waits performed (one per
retry).  `ok none` models the JavaScript fall-through return of `undefined`
when the loop body never runs (only possible for `retries = 0`). -/

def withRetryGo (fn : Nat → Except RemoteErr α) (retries delay maxDelay : Nat) :
    Nat → Nat → Except RemoteErr (Option α) × List Nat
  | _, 0 => (.ok none, [])
  | attempt, fuel + 1 =>
    match fn attempt with
    | .ok a => (.ok (some a), [])
    | .error e =>
      if e.statusCode = some 429 && attempt != retries then
        let p := withRetryGo fn retries delay maxDelay (attempt + 1) fuel
        (p.1, min (delay * attempt) maxDelay :: p.2)
      else (.error e, [])

/-- Embedding of `_withRetry(fn, retries, delay, maxDelay)`; the fuel
`retries` makes the recursion structural while attempts run `1 .. retries`. -/
def withRetry (fn : Nat → Except RemoteErr α) (retries delay maxDelay : Nat) :
    Except RemoteErr (Option α) × List Nat :=
  withRetryGo fn retries delay maxDelay 1 retries

/-- `_withRetry` with the source's default parameters
(`retries = 3, delay = 500, maxDelay = 3000`). -/
def withRetryDefaults (fn : Nat → Except RemoteErr α) :
    Except RemoteErr (Option α) × List Nat :=
  withRetry fn 3 500 3000

/-! ## Sender lists: `ensureListExistsByName`, `ensureSenderListExists`

Remote list state is modelled by an environment `env : Nat → List SgList`
giving the response of the k-th `fetchAllSenderLists(true)` call (a fresh
remote read; the remote service is eventually consistent, so consecutive
reads may differ).  Each embedded operation threads the fetch counter.
The list-creation `POST` (which the source wraps in `_withRetry` with the
default parameters) is modelled as an accepted request; whether and when
the created list becomes visible is part of `env`. -/

structure SgList where
  id : Nat
  name : String
deriving DecidableEq

/-- `lists.find((l) => l.name === listName)`. -/
def findListByName (lists : List SgList) (listName : String) : Option SgList :=
  lists.find? (fun l => l.name == listName)

structure EnsureResult where
  result : Except String SgList
  /-- fetch counter after the call -/
  next : Nat
  requests : List Request

/-- Embedding of `ensureListExistsByName`: fresh fetch, return the list if
found; otherwise create it, wait the fixed settle delay (1000ms, no
observable effect), re-fetch, and fail if the list is still not visible. -/
def ensureListExistsByName (env : Nat → List SgList) (listName : String)
    (k : Nat) : EnsureResult :=
  match findListByName (env k) listName with
  | some l => { result := .ok l, next := k + 1, requests := [.listsFetch] }
  | none =>
    match findListByName (env (k + 1)) listName with
    | some l =>
        { result := .ok l, next := k + 2,
          requests := [.listsFetch, .listCreate listName, .listsFetch] }
    | none =>
        { result := .error ("List creation failed after retry: " ++ listName),
          next := k + 2,
          requests := [.listsFetch, .listCreate listName, .listsFetch] }

/-- The `poll` closure of `ensureSenderListExists` as a `_withRetry`
operation: the i-th attempt performs the (k + i - 1)-th fresh fetch and
throws a plain `Error("List not yet verified")` — carrying no HTTP status —
when the list is not in the response. -/
def pollFn (env : Nat → List SgList) (listName : String) (k : Nat) :
    Nat → Except RemoteErr SgList :=
  fun attempt =>
    match findListByName (env (k + attempt - 1)) listName with
    | some l => .ok l
    | none => .error { errorMessages := none, message := "List not yet verified",
                       statusCode := none }

/-- Embedding of `ensureSenderListExists`: derive the list name, run
`ensureListExistsByName` (whose failure propagates uncaught), then run the
verification poll through `_withRetry(poll, 5, 500, 1000)`; any error coming
out of the retry helper is replaced by the hard failure
`List creation failed: <listName>`.  The success value is an `Option`
because `_withRetry` can in general return `undefined` (never for
`retries = 5`). -/
def ensureSenderListExists (env : Nat → List SgList) (senderId : String)
    (k : Nat) : Except String (Option SgList) × Nat :=
  let listName := formatListNameForSender senderId
  let e := ensureListExistsByName env listName k
  match e.result with
  | .error m => (.error m, e.next)
  | .ok _ =>
    let r := withRetry (pollFn env listName e.next) 5 500 1000
    match r.1 with
    | .ok l => (.ok l, e.next + r.2.length + 1)
    | .error _ =>
        (.error ("List creation failed: " ++ listName), e.next + r.2.length + 1)

/-- A remote view sequence exhibiting eventual-consistency flakiness for
sender `123`: the list exists at fetch 0, a stale read at fetch 1 misses
it, and every later fetch sees it again. -/
def envFlaky : Nat → List SgList :=
  fun k => if k = 1 then [] else [{ id := 1, name := "sender_123_list" }]

/-! ## Claims -/

/-- C3: for every operation, retry count, initial delay and maximum delay,
`_withRetry` retries a failed attempt only when the failure carries HTTP
status 429 and attempts remain, waiting `min(delay * attemptNumber, maxDelay)`
before the retry (a linear multiplier); a non-429 failure, and a 429 failure
on the final attempt, propagate immediately with no wait; the default retry
count is 3 (with delay 500 and maxDelay 3000).  Stated on `withRetryGo` at an
arbitrary attempt `1 ≤ attempt ≤ retries` with its loop fuel
`retries + 1 - attempt`. -/
theorem withRetry_retries_only_rate_limited :
    (∀ (α : Type) (fn : Nat → Except RemoteErr α)
       (retries delay maxDelay attempt : Nat) (a : α),
       attempt ≤ retries → fn attempt = .ok a →
       withRetryGo fn retries delay maxDelay attempt (retries + 1 - attempt) =
         (.ok (some a), [])) ∧
    (∀ (α : Type) (fn : Nat → Except RemoteErr α)
       (retries delay maxDelay attempt : Nat) (e : RemoteErr),
       attempt ≤ retries → fn attempt = .error e → e.statusCode ≠ some 429 →
       withRetryGo fn retries delay maxDelay attempt (retries + 1 - attempt) =
         (.error e, [])) ∧
    (∀ (α : Type) (fn : Nat → Except RemoteErr α)
       (retries delay maxDelay : Nat) (e : RemoteErr),
       1 ≤ retries → fn retries = .error e →
       withRetryGo fn retries delay maxDelay retries (retries + 1 - retries) =
         (.error e, [])) ∧
    (∀ (α : Type) (fn : Nat → Except RemoteErr α)
       (retries delay maxDelay attempt : Nat) (e : RemoteErr),
       1 ≤ attempt → attempt < retries →
       fn attempt = .error e → e.statusCode = some 429 →
       withRetryGo fn retries delay maxDelay attempt (retries + 1 - attempt) =
         ((withRetryGo fn retries delay maxDelay (attempt + 1)
             (retries + 1 - (attempt + 1))).1,
          min (delay * attempt) maxDelay ::
            (withRetryGo fn retries delay maxDelay (attempt + 1)
              (retries + 1 - (attempt + 1))).2)) ∧
    (∀ (α : Type) (fn : Nat → Except RemoteErr α) (retries delay maxDelay : Nat),
       withRetry fn retries delay maxDelay =
         withRetryGo fn retries delay maxDelay 1 retries) ∧
    (∀ (α : Type) (fn : Nat → Except RemoteErr α),
       withRetryDefaults fn = withRetry fn 3 500 3000) := by
  refine ⟨?_, ?_, ?_, ?_, ?_, ?_⟩
  · intro α fn retries delay maxDelay attempt a hle hfn
    have hf : retries + 1 - attempt = (retries - attempt) + 1 := by omega
    rw [hf]
    simp [withRetryGo, hfn]
  · intro α fn retries delay maxDelay attempt e hle hfn h429
    have hf : retries + 1 - attempt = (retries - attempt) + 1 := by omega
    rw [hf]
    simp [withRetryGo, hfn, h429]
  · intro α fn retries delay maxDelay e hle hfn
    have hf : retries + 1 - retries = 0 + 1 := by omega
    rw [hf]
    simp [withRetryGo, hfn]
  · intro α fn retries delay maxDelay attempt e h1 hlt hfn h429
    have hf : retries + 1 - attempt = ((retries + 1 - (attempt + 1)) + 1) := by omega
    rw [hf]
    have hne : attempt ≠ retries := by omega
    simp [withRetryGo, hfn, h429, hne]
  · intro α fn retries delay maxDelay
    rfl
  · intro α fn
    rfl

/-- A non-429 remote failure used in witnesses. -/
def errBoom : RemoteErr :=
  { errorMessages := none, message := "boom", statusCode := some 500 }

/-- A 429 rate-limit failure used in witnesses. -/
def errRate : RemoteErr :=
  { errorMessages := none, message := "rate", statusCode := some 429 }

/-- An operation that is rate limited on attempt 1 and succeeds afterwards. -/
def fnRateThenOk : Nat → Except RemoteErr Nat :=
  fun n => if n = 1 then .error errRate else .ok 7

/-- An operation that always fails with a non-429 error. -/
def fnBoom : Nat → Except RemoteErr Nat := fun _ => .error errBoom

/-- An operation that is always rate limited. -/
def fnRate : Nat → Except RemoteErr Nat := fun _ => .error errRate

theorem withRetry_retries_only_rate_limited_witness :
    withRetryGo fnRateThenOk 3 500 3000 2 (3 + 1 - 2) = (.ok (some 7), []) ∧
    withRetryGo fnBoom 3 500 3000 1 (3 + 1 - 1) = (.error errBoom, []) ∧
    withRetryGo fnRate 3 500 3000 3 (3 + 1 - 3) = (.error errRate, []) ∧
    withRetryGo fnRateThenOk 3 500 3000 1 (3 + 1 - 1) =
      ((withRetryGo fnRateThenOk 3 500 3000 2 (3 + 1 - 2)).1,
       min (500 * 1) 3000 :: (withRetryGo fnRateThenOk 3 500 3000 2 (3 + 1 - 2)).2) := by
  refine ⟨?_, ?_, ?_, ?_⟩
  · exact withRetry_retries_only_rate_limited.1 Nat fnRateThenOk 3 500 3000 2 7
      (by decide) rfl
  · exact withRetry_retries_only_rate_limited.2.1 Nat fnBoom 3 500 3000 1 errBoom
      (by decide) rfl (by decide)
  · exact withRetry_retries_only_rate_limited.2.2.1 Nat fnRate 3 500 3000 errRate
      (by decide) rfl
  · exact withRetry_retries_only_rate_limited.2.2.2.1 Nat fnRateThenOk 3 500 3000 1
      errRate (by decide) (by decide) rfl rfl

/-- C2: the claim states that the verification poll of
`ensureSenderListExists` retries a not-yet-visible list for up to 5 attempts
with backoff starting at 500ms, failing hard only on the final miss.  The
call site indeed passes `(poll, 5, 500, 1000)` to `_withRetry` and its
comments announce polling "with retries", but the poll throws a plain
`Error("List not yet verified")`, which carries no HTTP 429 status, so
`_withRetry` rethrows it on the very first miss: no second attempt and no
backoff wait ever happen.  In the run below the list exists, one stale
re-query misses it, and every later fetch sees it again — the claimed loop
would succeed on attempt 2, yet the code fails hard after a single poll
query with zero waits. -/
theorem ensureSenderList_first_miss_is_fatal :
    (ensureSenderListExists envFlaky "123" 0).1 =
      .error "List creation failed: sender_123_list" ∧
    (withRetry (pollFn envFlaky "sender_123_list" 1) 5 500 1000).2 = [] ∧
    findListByName (envFlaky 2) "sender_123_list" =
      some { id := 1, name := "sender_123_list" } :=
  ⟨rfl, rfl, rfl⟩

/-! ### Email-validator language lemmas -/

lemma inner_dot_split {b : List Char} (h : '.' ∈ (b.drop 1).dropLast) :
    ∃ b1 b2 : List Char, b = b1 ++ '.' :: b2 ∧ b1 ≠ [] ∧ b2 ≠ [] := by
  cases b with
  | nil => simp at h
  | cons x t =>
    have h2 : '.' ∈ t.dropLast := h
    have htne : t ≠ [] := by
      rintro rfl
      simp at h2
    obtain ⟨u, v, huv⟩ := List.append_of_mem h2
    obtain ⟨g, hg⟩ : ∃ g, t = t.dropLast ++ [g] :=
      ⟨t.getLast htne, (List.dropLast_concat_getLast htne).symm⟩
    rw [huv] at hg
    refine ⟨x :: u, v ++ [g], ?_, by simp, by simp⟩
    rw [hg]
    simp

lemma email_split_take (a r : List Char) (hno : ∀ x ∈ a, (x != '@') = true) :
    (a ++ '@' :: r).takeWhile (fun c => c != '@') = a := by
  rw [List.takeWhile_append_of_pos hno, List.takeWhile_cons_of_neg (by decide)]
  simp

lemma email_split_drop (a r : List Char) (hno : ∀ x ∈ a, (x != '@') = true) :
    (a ++ '@' :: r).dropWhile (fun c => c != '@') = '@' :: r := by
  rw [List.dropWhile_append_of_pos hno, List.dropWhile_cons_of_neg (by decide)]

lemma isValidEmail_eq_of_drop (s : String) (b : List Char)
    (hd : s.toList.dropWhile (fun c => c != '@') = '@' :: b) :
    isValidEmail s =
      (!(s.toList.takeWhile (fun c => c != '@')).isEmpty &&
       (s.toList.takeWhile (fun c => c != '@')).all emailOk &&
       !b.isEmpty && b.all emailOk && ((b.drop 1).dropLast).contains '.') := by
  unfold isValidEmail
  rw [hd]
  rfl

lemma valid_email_shape {s : String} (h : isValidEmail s = true) : emailShape s := by
  unfold isValidEmail at h
  split at h
  case h_2 => exact absurd h (by simp)
  case h_1 b hd =>
    simp only [Bool.and_eq_true] at h
    obtain ⟨⟨⟨⟨hane, haok⟩, hbne⟩, hbok⟩, hdot⟩ := h
    have hsplit : s.toList = s.toList.takeWhile (fun c => c != '@') ++ '@' :: b := by
      conv_lhs => rw [← List.takeWhile_append_dropWhile (fun c => c != '@') s.toList]
      rw [hd]
    have hdotmem : '.' ∈ (b.drop 1).dropLast := by
      obtain ⟨x, hx, hbeq⟩ := List.contains_iff_exists_mem_beq.mp hdot
      obtain rfl : '.' = x := by simpa using hbeq
      exact hx
    obtain ⟨b1, b2, hbsplit, hb1, hb2⟩ := inner_dot_split hdotmem
    refine ⟨s.toList.takeWhile (fun c => c != '@'), b1, b2, ?_, by simpa using hane,
      hb1, hb2, ?_, ?_, ?_⟩
    · conv_lhs => rw [hsplit, hbsplit]
    · exact fun x hx => List.all_eq_true.mp haok x hx
    · intro x hx
      exact List.all_eq_true.mp hbok x (by rw [hbsplit]; exact List.mem_append_left _ hx)
    · intro x hx
      refine List.all_eq_true.mp hbok x ?_
      rw [hbsplit]
      exact List.mem_append_right _ (List.mem_cons_of_mem _ hx)

lemma shape_valid_email {s : String} (h : emailShape s) : isValidEmail s = true := by
  obtain ⟨a, b1, b2, hdec, hane, hb1, hb2, hoka, hokb1, hokb2⟩ := h
  have hno : ∀ x ∈ a, (x != '@') = true := by
    intro x hx
    have h3 := hoka x hx
    simp only [emailOk, Bool.and_eq_true] at h3
    exact h3.2
  have htw : s.toList.takeWhile (fun c => c != '@') = a := by
    rw [hdec]
    exact email_split_take a (b1 ++ '.' :: b2) hno
  have hdw : s.toList.dropWhile (fun c => c != '@') = '@' :: (b1 ++ '.' :: b2) := by
    rw [hdec]
    exact email_split_drop a (b1 ++ '.' :: b2) hno
  have hdot : (((b1 ++ '.' :: b2).drop 1).dropLast).contains '.' = true := by
    obtain ⟨y, b1t, rfl⟩ := List.exists_cons_of_ne_nil hb1
    have hd1 : ((y :: b1t ++ '.' :: b2).drop 1) = b1t ++ '.' :: b2 := rfl
    rw [hd1, List.dropLast_append_cons]
    refine List.contains_iff_exists_mem_beq.mpr ⟨'.', ?_, by simp⟩
    refine List.mem_append_right _ ?_
    obtain ⟨z, b2t, rfl⟩ := List.exists_cons_of_ne_nil hb2
    simp
  have hball : (b1 ++ '.' :: b2).all emailOk = true := by
    refine List.all_eq_true.mpr ?_
    intro x hx
    rcases List.mem_append.mp hx with hxa | hxc
    · exact hokb1 x hxa
    · rcases List.mem_cons.mp hxc with rfl | hxb
      · decide
      · exact hokb2 x hxb
  have haall : (s.toList.takeWhile (fun c => c != '@')).all emailOk = true := by
    rw [htw]
    exact List.all_eq_true.mpr hoka
  have hae : (!(s.toList.takeWhile (fun c => c != '@')).isEmpty) = true := by
    rw [htw]
    simp [hane]
  have hbe : (!(b1 ++ '.' :: b2).isEmpty) = true := by simp [hb1]
  rw [isValidEmail_eq_of_drop s (b1 ++ '.' :: b2) hdw]
  simp only [Bool.and_eq_true]
  exact ⟨⟨⟨⟨hae, haall⟩, hbe⟩, hball⟩, hdot⟩

lemma not_shape_invalid {s : String} (h : ¬ emailShape s) : isValidEmail s = false := by
  cases hv : isValidEmail s
  · rfl
  · exact absurd (valid_email_shape hv) h

/-- C7: every string that is not of the validator's syntactic form
(`local@domain.tld` with no whitespace: a nonempty `@`-free,
whitespace-free local part, an `@`, and a domain with an inner dot) is
rejected by `_isValidEmail` — the executable check is proved equivalent to
that decomposition — and `sendSimpleEmail` called with such a string as the
recipient, the sender, or any element of the CC or BCC list fails without
issuing any remote call. -/
theorem email_validator_rejects_malformed :
    (∀ s : String, isValidEmail s = true ↔ emailShape s) ∧
    (∀ (args : SimpleArgs) (outcome : SendOutcome),
       ¬ emailShape args.toAddr →
       isErr (sendSimpleEmail args outcome).1 = true ∧
       (sendSimpleEmail args outcome).2 = []) ∧
    (∀ (args : SimpleArgs) (outcome : SendOutcome),
       ¬ emailShape args.fromAddr →
       isErr (sendSimpleEmail args outcome).1 = true ∧
       (sendSimpleEmail args outcome).2 = []) ∧
    (∀ (args : SimpleArgs) (outcome : SendOutcome) (l : List String) (e : String),
       args.cc = some l → e ∈ l → ¬ emailShape e →
       isErr (sendSimpleEmail args outcome).1 = true ∧
       (sendSimpleEmail args outcome).2 = []) ∧
    (∀ (args : SimpleArgs) (outcome : SendOutcome) (l : List String) (e : String),
       args.bcc = some l → e ∈ l → ¬ emailShape e →
       isErr (sendSimpleEmail args outcome).1 = true ∧
       (sendSimpleEmail args outcome).2 = []) := by
  refine ⟨fun s => ⟨valid_email_shape, shape_valid_email⟩, ?_, ?_, ?_, ?_⟩
  · intro args outcome h
    have hv := not_shape_invalid h
    simp [sendSimpleEmail, hv, isErr]
  · intro args outcome h
    have hv := not_shape_invalid h
    by_cases ht : isValidEmail args.toAddr
    · simp [sendSimpleEmail, ht, hv, isErr]
    · have ht2 : isValidEmail args.toAddr = false := by simpa using ht
      simp [sendSimpleEmail, ht2, isErr]
  · intro args outcome l e hcc he h
    have hv := not_shape_invalid h
    have hbad : ccListInvalid args.cc = true := by
      rw [hcc]
      unfold ccListInvalid
      exact List.any_eq_true.mpr ⟨e, he, by simp [hv]⟩
    by_cases ht : isValidEmail args.toAddr
    · by_cases hf : isValidEmail args.fromAddr
      · simp [sendSimpleEmail, ht, hf, hbad, isErr]
      · have hf2 : isValidEmail args.fromAddr = false := by simpa using hf
        simp [sendSimpleEmail, ht, hf2, isErr]
    · have ht2 : isValidEmail args.toAddr = false := by simpa using ht
      simp [sendSimpleEmail, ht2, isErr]
  · intro args outcome l e hbcc he h
    have hv := not_shape_invalid h
    have hbad : ccListInvalid args.bcc = true := by
      rw [hbcc]
      unfold ccListInvalid
      exact List.any_eq_true.mpr ⟨e, he, by simp [hv]⟩
    by_cases ht : isValidEmail args.toAddr
    · by_cases hf : isValidEmail args.fromAddr
      · by_cases hc : ccListInvalid args.cc
        · simp [sendSimpleEmail, ht, hf, hc, isErr]
        · have hc2 : ccListInvalid args.cc = false := by simpa using hc
          simp [sendSimpleEmail, ht, hf, hc2, hbad, isErr]
      · have hf2 : isValidEmail args.fromAddr = false := by simpa using hf
        simp [sendSimpleEmail, ht, hf2, isErr]
    · have ht2 : isValidEmail args.toAddr = false := by simpa using ht
      simp [sendSimpleEmail, ht2, isErr]

def wBadToArgs : SimpleArgs :=
  { toAddr := "noatsign", fromAddr := "a@b.c", templateKey := "new-order-email",
    dynamicTemplateData := [], cc := none, bcc := none }

def wBadCcArgs : SimpleArgs :=
  { toAddr := "a@b.c", fromAddr := "d@e.f", templateKey := "new-order-email",
    dynamicTemplateData := [], cc := some ["nodot@nodot"], bcc := none }

/-- The send outcome used by the validator witnesses. -/
def wOutV : SendOutcome := { sendError := none }

theorem email_validator_rejects_malformed_witness :
    (isErr (sendSimpleEmail wBadToArgs wOutV).1 = true ∧
     (sendSimpleEmail wBadToArgs wOutV).2 = []) ∧
    (isErr (sendSimpleEmail wBadCcArgs wOutV).1 = true ∧
     (sendSimpleEmail wBadCcArgs wOutV).2 = []) := by
  have h1 : ¬ emailShape "noatsign" := fun hs =>
    absurd (shape_valid_email hs) (by decide)
  have h2 : ¬ emailShape "nodot@nodot" := fun hs =>
    absurd (shape_valid_email hs) (by decide)
  constructor
  · exact email_validator_rejects_malformed.2.1 wBadToArgs wOutV h1
  · exact email_validator_rejects_malformed.2.2.2.1 wBadCcArgs wOutV
      ["nodot@nodot"] "nodot@nodot" rfl (List.Mem.head _) h2

/-! ### Tag lookup bridge -/

lemma buildFieldType_entries :
    buildFieldTypeFromEmailTemplateConfig =
      [("order_id", "string"), ("user_name", "string"), ("items", "array"),
       ("reset_link", "url"), ("user_email", "email"),
       ("creator_name", "string"), ("message_body", "html")] := by decide

lemma buildFieldType_lookup_none {t : String}
    (h : ∀ p ∈ EmailTemplateMap, ∀ q ∈ p.2.customFieldTypes, q.1 ≠ t) :
    objLookup buildFieldTypeFromEmailTemplateConfig t = none := by
  have h1 : "order_id" ≠ t :=
    h ("new-order-email", newOrderEmailConfig) (by decide) ("order_id", "string")
      (by decide)
  have h2 : "user_name" ≠ t :=
    h ("new-order-email", newOrderEmailConfig) (by decide) ("user_name", "string")
      (by decide)
  have h3 : "items" ≠ t :=
    h ("new-order-email", newOrderEmailConfig) (by decide) ("items", "array")
      (by decide)
  have h4 : "reset_link" ≠ t :=
    h ("password-reset", passwordResetConfig) (by decide) ("reset_link", "url")
      (by decide)
  have h5 : "user_email" ≠ t :=
    h ("password-reset", passwordResetConfig) (by decide) ("user_email", "email")
      (by decide)
  have h6 : "creator_name" ≠ t :=
    h ("creator-broadcast", creatorBroadcastConfig) (by decide)
      ("creator_name", "string") (by decide)
  have h7 : "message_body" ≠ t :=
    h ("creator-broadcast", creatorBroadcastConfig) (by decide)
      ("message_body", "html") (by decide)
  rw [buildFieldType_entries]
  unfold objLookup
  simp only [Option.map_eq_none']
  rw [List.find?_eq_none]
  intro x hx
  simp only [List.mem_cons, List.not_mem_nil, or_false] at hx
  rcases hx with rfl | rfl | rfl | rfl | rfl | rfl | rfl <;>
    simp only [beq_iff_eq] <;> assumption

/-- C8: for every tag that is not a key of any template declaration in
`customFieldTypes`, `sendCampaignEmail` fails immediately with the error
`Invalid tag: <tag>` and issues no remote request at all (no segment,
campaign or schedule call), leaving the remote state untouched. -/
theorem sendCampaign_invalid_tag_fails_before_remote :
    ∀ (args : CampaignArgs) (oracle : CampaignOracle),
      (∀ p ∈ EmailTemplateMap, ∀ q ∈ p.2.customFieldTypes, q.1 ≠ args.tag) →
      sendCampaignEmail args oracle =
        (.error (.err ("Invalid tag: " ++ args.tag)), []) := by
  intro args oracle h
  have hl := buildFieldType_lookup_none h
  simp [sendCampaignEmail, hl]

def wInvalidTagArgs : CampaignArgs :=
  { listId := "L1", tag := "weekly_special", templateKey := "creator-broadcast",
    senderId := "123", sendAt := none }

/-- A remote oracle whose three campaign calls all succeed. -/
def oracleAllOk : CampaignOracle :=
  { segmentResult := .ok 7, campaignResult := .ok 8, scheduleResult := .ok () }

theorem sendCampaign_invalid_tag_fails_before_remote_witness :
    sendCampaignEmail wInvalidTagArgs oracleAllOk =
      (.error (.err ("Invalid tag: " ++ "weekly_special")), []) :=
  sendCampaign_invalid_tag_fails_before_remote wInvalidTagArgs oracleAllOk (by decide)

/-! ### C1 -/

def cx1Args : CampaignArgs :=
  { listId := "L1", tag := "order_id", templateKey := "no-such-template",
    senderId := "123", sendAt := none }

/-- C1 counterexample: the claim says `sendCampaignEmail` called with an
unknown `templateKey` fails without performing any remote call.  Here the
tag is valid and the `templateKey` is unknown: the call fails, but only
after the segment-creation request has been issued — the request trace is
not empty. -/
theorem sendCampaign_unknown_template_issues_segment_call :
    isErr (sendCampaignEmail cx1Args oracleAllOk).1 = true ∧
    (sendCampaignEmail cx1Args oracleAllOk).2 =
      [Request.segmentCreate "segment_L1_order_id__sender_123" ["L1"] "order_id"] :=
  ⟨rfl, rfl⟩

/-- C1 (amended): input-validation failures of `sendSimpleEmail` — including
an unknown `templateKey` — are raised before its remote send, and
`sendCampaignEmail` validates its tag before any remote call; but
`sendCampaignEmail` does not validate `templateKey` up front: with a valid
tag, an unknown `templateKey` makes it fail (with a `TypeError` from
dereferencing an undefined template) only after the segment-creation
request has been issued. -/
theorem validation_before_remote_calls :
    (∀ (args : SimpleArgs) (outcome : SendOutcome),
       objLookup EmailTemplateMap args.templateKey = none →
       isErr (sendSimpleEmail args outcome).1 = true ∧
       (sendSimpleEmail args outcome).2 = []) ∧
    (∀ (args : CampaignArgs) (oracle : CampaignOracle),
       objLookup buildFieldTypeFromEmailTemplateConfig args.tag = none →
       sendCampaignEmail args oracle =
         (.error (.err ("Invalid tag: " ++ args.tag)), [])) ∧
    (∀ (args : CampaignArgs) (oracle : CampaignOracle) (t : String) (segId : Nat),
       objLookup buildFieldTypeFromEmailTemplateConfig args.tag = some t →
       t ≠ "" →
       objLookup EmailTemplateMap args.templateKey = none →
       oracle.segmentResult = .ok segId →
       sendCampaignEmail args oracle =
         (.error .typeError,
          [Request.segmentCreate
            ("segment_" ++ args.listId ++ "_" ++ args.tag ++ "__sender_" ++
              args.senderId)
            [args.listId] args.tag])) := by
  refine ⟨?_, ?_, ?_⟩
  · intro args outcome h
    by_cases ht : isValidEmail args.toAddr
    · by_cases hf : isValidEmail args.fromAddr
      · by_cases hc : ccListInvalid args.cc
        · simp [sendSimpleEmail, ht, hf, hc, isErr]
        · have hc2 : ccListInvalid args.cc = false := by simpa using hc
          by_cases hb : ccListInvalid args.bcc
          · simp [sendSimpleEmail, ht, hf, hc2, hb, isErr]
          · have hb2 : ccListInvalid args.bcc = false := by simpa using hb
            simp [sendSimpleEmail, ht, hf, hc2, hb2, h, isErr]
      · have hf2 : isValidEmail args.fromAddr = false := by simpa using hf
        simp [sendSimpleEmail, ht, hf2, isErr]
    · have ht2 : isValidEmail args.toAddr = false := by simpa using ht
      simp [sendSimpleEmail, ht2, isErr]
  · intro args oracle h
    simp [sendCampaignEmail, h]
  · intro args oracle t segId h1 h2 h3 hseg
    simp [sendCampaignEmail, h1, h2, h3, hseg]

def wUnknownKeyArgs : SimpleArgs :=
  { toAddr := "a@b.c", fromAddr := "d@e.f", templateKey := "no-such-template",
    dynamicTemplateData := [], cc := none, bcc := none }

/-- The trivial send outcome: the remote send succeeds. -/
def wOut : SendOutcome := { sendError := none }

theorem validation_before_remote_calls_witness :
    (isErr (sendSimpleEmail wUnknownKeyArgs wOut).1 = true ∧
     (sendSimpleEmail wUnknownKeyArgs wOut).2 = []) ∧
    sendCampaignEmail cx1Args oracleAllOk =
      (.error .typeError,
       [Request.segmentCreate
         ("segment_" ++ cx1Args.listId ++ "_" ++ cx1Args.tag ++ "__sender_" ++
           cx1Args.senderId)
         [cx1Args.listId] cx1Args.tag]) := by
  refine ⟨validation_before_remote_calls.1 wUnknownKeyArgs wOut rfl, ?_⟩
  exact validation_before_remote_calls.2.2 cx1Args oracleAllOk "string" 7 rfl
    (by decide) rfl rfl

/-! ### C6 -/

/-- C6: for every template with declared `requiredFields`, `sendSimpleEmail`
fails whenever at least one required field is absent from
`dynamicTemplateData` (membership being the JavaScript `in` check), with an
error message listing exactly the missing field names, comma-joined, in
declaration order. -/
theorem sendSimple_missing_required_fields :
    ∀ (args : SimpleArgs) (outcome : SendOutcome) (template : TemplateConfig),
      isValidEmail args.toAddr = true → isValidEmail args.fromAddr = true →
      ccListInvalid args.cc = false → ccListInvalid args.bcc = false →
      objLookup EmailTemplateMap args.templateKey = some template →
      template.requiredFields.filter
        (fun f => !(hasKey args.dynamicTemplateData f)) ≠ [] →
      sendSimpleEmail args outcome =
        (.error ("Missing required template fields: " ++ String.intercalate ", "
          (template.requiredFields.filter
            (fun f => !(hasKey args.dynamicTemplateData f)))), []) := by
  intro args outcome template ht hf hc hb hk hm
  have hm2 : (template.requiredFields.filter
      (fun f => !(hasKey args.dynamicTemplateData f))).isEmpty = false :=
    List.isEmpty_eq_false.mpr hm
  simp [sendSimpleEmail, ht, hf, hc, hb, hk, hm2]

def wMissingArgs : SimpleArgs :=
  { toAddr := "a@b.c", fromAddr := "d@e.f", templateKey := "new-order-email",
    dynamicTemplateData := [("order_id", JsValue.str "1")], cc := none, bcc := none }

theorem sendSimple_missing_required_fields_witness :
    sendSimpleEmail wMissingArgs wOut =
      (.error ("Missing required template fields: " ++ String.intercalate ", "
        (newOrderEmailConfig.requiredFields.filter
          (fun f => !(hasKey wMissingArgs.dynamicTemplateData f)))), []) :=
  sendSimple_missing_required_fields wMissingArgs wOut newOrderEmailConfig
    rfl rfl rfl rfl rfl (by decide)

/-! ### C9 -/

lemma matches_null_eq_false {v : JsValue} (h : v ≠ .null) :
    (v matches JsValue.null) = false := by
  cases v <;> first | exact absurd rfl h | rfl

lemma firstTypeError_ne_none {cft : List (String × String)}
    {dtd : List (String × JsValue)}
    (h : ∃ p ∈ dtd, typeCheckError p.1 (objLookup cft p.1) p.2 ≠ none) :
    firstTypeError cft dtd ≠ none := by
  induction dtd with
  | nil =>
    obtain ⟨p, hp, _⟩ := h
    simp at hp
  | cons q rest ih =>
    obtain ⟨f, v⟩ := q
    unfold firstTypeError
    cases hq : typeCheckError f (objLookup cft f) v with
    | some m => simp
    | none =>
      apply ih
      obtain ⟨p, hp, hne⟩ := h
      rcases List.mem_cons.mp hp with rfl | hrest
      · exact absurd hq hne
      · exact ⟨p, hrest, hne⟩

/-- C9: a `dynamicTemplateData` field with a declared type among `string`,
`boolean`, `array` fails validation when the runtime value does not match
the declaration (in particular a field declared `array` rejects any
non-array value), a `null` value always passes, skipping the type check,
and `sendSimpleEmail` fails before its remote send whenever some field has
a type error. -/
theorem typed_fields_mismatch_rejected :
    (∀ (field : String) (expected : Option String),
       typeCheckError field expected .null = none) ∧
    (∀ (field : String) (v : JsValue), v ≠ .null → v.isString = false →
       typeCheckError field (some "string") v =
         some ("Invalid type for " ++ field ++ ": expected string")) ∧
    (∀ (field : String) (v : JsValue), v ≠ .null → v.isBool = false →
       typeCheckError field (some "boolean") v =
         some ("Invalid type for " ++ field ++ ": expected boolean")) ∧
    (∀ (field : String) (v : JsValue), v ≠ .null → v.isArray = false →
       typeCheckError field (some "array") v =
         some ("Invalid type for " ++ field ++ ": expected array")) ∧
    (∀ (args : SimpleArgs) (outcome : SendOutcome) (template : TemplateConfig),
       isValidEmail args.toAddr = true → isValidEmail args.fromAddr = true →
       ccListInvalid args.cc = false → ccListInvalid args.bcc = false →
       objLookup EmailTemplateMap args.templateKey = some template →
       template.requiredFields.filter
         (fun f => !(hasKey args.dynamicTemplateData f)) = [] →
       (∃ p ∈ args.dynamicTemplateData,
          typeCheckError p.1 (objLookup template.customFieldTypes p.1) p.2 ≠
            none) →
       isErr (sendSimpleEmail args outcome).1 = true ∧
       (sendSimpleEmail args outcome).2 = []) := by
  refine ⟨?_, ?_, ?_, ?_, ?_⟩
  · intro field expected
    cases expected with
    | none => rfl
    | some e =>
      by_cases he : e = "" <;> simp [typeCheckError, he]
  · intro field v hn hs
    have hm := matches_null_eq_false hn
    simp [typeCheckError, hm, hs]
  · intro field v hn hs
    have hm := matches_null_eq_false hn
    simp [typeCheckError, hm, hs]
  · intro field v hn hs
    have hm := matches_null_eq_false hn
    simp [typeCheckError, hm, hs]
  · intro args outcome template ht hf hc hb hk hm0 hex
    obtain ⟨m, hm⟩ := Option.ne_none_iff_exists'.mp (firstTypeError_ne_none hex)
    have hm2 : (template.requiredFields.filter
        (fun f => !(hasKey args.dynamicTemplateData f))).isEmpty = true := by
      simp [hm0]
    simp [sendSimpleEmail, ht, hf, hc, hb, hk, hm2, hm, isErr]

def wBadTypeArgs : SimpleArgs :=
  { toAddr := "a@b.c", fromAddr := "d@e.f", templateKey := "new-order-email",
    dynamicTemplateData :=
      [("order_id", JsValue.str "1"), ("user_name", JsValue.str "u"),
       ("items", JsValue.str "oops")],
    cc := none, bcc := none }

theorem typed_fields_mismatch_rejected_witness :
    typeCheckError "items" (some "array") (JsValue.str "oops") =
      some ("Invalid type for " ++ "items" ++ ": expected array") ∧
    typeCheckError "items" (some "array") JsValue.null = none ∧
    (isErr (sendSimpleEmail wBadTypeArgs wOut).1 = true ∧
     (sendSimpleEmail wBadTypeArgs wOut).2 = []) := by
  refine ⟨?_, typed_fields_mismatch_rejected.1 "items" (some "array"), ?_⟩
  · exact typed_fields_mismatch_rejected.2.2.2.1 "items" (JsValue.str "oops")
      (by simp) rfl
  · refine typed_fields_mismatch_rejected.2.2.2.2 wBadTypeArgs wOut
      newOrderEmailConfig rfl rfl rfl rfl rfl (by decide)
      ⟨("items", JsValue.str "oops"),
        List.Mem.tail _ (List.Mem.tail _ (List.Mem.head _)), by decide⟩

/-! ### C10 -/

def wUrlNumberArgs : SimpleArgs :=
  { toAddr := "a@b.c", fromAddr := "d@e.f", templateKey := "password-reset",
    dynamicTemplateData :=
      [("reset_link", JsValue.num 42), ("user_email", JsValue.bool true)],
    cc := none, bcc := none }

/-- C10: a field whose declared type is outside `string`, `boolean`,
`array` — such as the `url`, `email` and `html` types declared in the
shipped template map — is never type checked: any non-null value of any
runtime type passes, and a `password-reset` send whose `url` field holds a
number and whose `email` field holds a boolean sails through validation and
reaches the remote send. -/
theorem undeclared_types_not_checked :
    (∀ (field t : String) (v : JsValue),
       t ≠ "string" → t ≠ "boolean" → t ≠ "array" →
       typeCheckError field (some t) v = none) ∧
    objLookup passwordResetConfig.customFieldTypes "reset_link" = some "url" ∧
    objLookup passwordResetConfig.customFieldTypes "user_email" = some "email" ∧
    objLookup creatorBroadcastConfig.customFieldTypes "message_body" =
      some "html" ∧
    objLookup EmailTemplateMap "password-reset" = some passwordResetConfig ∧
    objLookup EmailTemplateMap "creator-broadcast" =
      some creatorBroadcastConfig ∧
    sendSimpleEmail wUrlNumberArgs wOut =
      (.ok (Request.mailSend "a@b.c" "d@e.f" "d-abcdef1234567890abcdef1234567890"
        [("reset_link", JsValue.num 42), ("user_email", JsValue.bool true)]
        none none),
       [Request.mailSend "a@b.c" "d@e.f" "d-abcdef1234567890abcdef1234567890"
        [("reset_link", JsValue.num 42), ("user_email", JsValue.bool true)]
        none none]) := by
  refine ⟨?_, rfl, rfl, rfl, rfl, rfl, rfl⟩
  intro field t v h1 h2 h3
  cases v <;> simp [typeCheckError, h1, h2, h3]

theorem undeclared_types_not_checked_witness :
    typeCheckError "reset_link" (some "url") (JsValue.str "hello") = none :=
  undeclared_types_not_checked.1 "reset_link" "url" (JsValue.str "hello")
    (by decide) (by decide) (by decide)

/-! ### C4 -/

lemma jsbeq_def (x y : JsValue) : (x == y) = JsValue.beq x y := rfl

lemma beq_some_bool_iff (o : Option JsValue) (b : Bool) :
    (o == some (JsValue.bool b)) = true ↔ o = some (JsValue.bool b) := by
  have hnone : ((none : Option JsValue) == some (JsValue.bool b)) = false := rfl
  have hsome : ∀ y : JsValue,
      ((some y : Option JsValue) == some (JsValue.bool b)) =
        (y == JsValue.bool b) := fun y => rfl
  cases o with
  | none => simp [hnone]
  | some y =>
    rw [hsome]
    cases y <;> simp [jsbeq_def, JsValue.beq]

/-- C4: for every email, list id and custom-field map, the
subscribe/unsubscribe operation issues exactly one contact-upsert request —
with list membership and the given field values when subscribing, and with
no list membership and every field key set to null when unsubscribing —
then re-queries the contact and fails whenever a custom field does not hold
the expected value: the written value when subscribing (characterized here
for the boolean tag values the service writes), cleared (null or absent)
when unsubscribing. -/
theorem subscribe_single_upsert_and_verifies :
    ∀ (email listId : String) (customFields : List (String × JsValue))
      (subscribe : Bool) (oracle : SubOracle),
      isValidEmail email = true →
      ((subscribeOrUnsubscribeRecipientFromSenderListByTag email listId
          customFields subscribe oracle).2.filter
            (fun r => r matches .contactsUpsert _ _ _) =
        [Request.contactsUpsert email
          (if subscribe then some [listId] else none)
          (if subscribe then customFields else clearedFields customFields)]) ∧
      (∀ contact : Contact,
        oracle.upsertResult = .ok () →
        oracle.searchResult = .ok (some contact) →
        ((∃ p ∈ customFields,
            fieldVerifyFails subscribe contact p.1 p.2 = true) →
          (subscribeOrUnsubscribeRecipientFromSenderListByTag email listId
            customFields subscribe oracle).1 =
            .error "Failed to update recipient fields") ∧
        ((∀ p ∈ customFields,
            fieldVerifyFails subscribe contact p.1 p.2 = false) →
          (subscribeOrUnsubscribeRecipientFromSenderListByTag email listId
            customFields subscribe oracle).1 = .ok ())) ∧
      (∀ (contact : Contact) (f : String) (v : JsValue),
        fieldVerifyFails false contact f v = false ↔
          (currentFieldValue contact f = none ∨
           currentFieldValue contact f = some JsValue.null)) ∧
      (∀ (contact : Contact) (f : String) (b : Bool),
        fieldVerifyFails true contact f (JsValue.bool b) = false ↔
          currentFieldValue contact f = some (JsValue.bool b)) := by
  intro email listId customFields subscribe oracle hvalid
  refine ⟨?_, ?_, ?_, ?_⟩
  · cases hu : oracle.upsertResult with
    | error e => simp [subscribeOrUnsubscribeRecipientFromSenderListByTag,
        hvalid, hu, List.filter]
    | ok u =>
      cases hs : oracle.searchResult with
      | error e => simp [subscribeOrUnsubscribeRecipientFromSenderListByTag,
          hvalid, hu, hs, List.filter]
      | ok oc =>
        cases oc with
        | none => simp [subscribeOrUnsubscribeRecipientFromSenderListByTag,
            hvalid, hu, hs, List.filter]
        | some contact =>
          by_cases hany : (customFields.any
              (fun p => fieldVerifyFails subscribe contact p.1 p.2)) = true
          · simp [subscribeOrUnsubscribeRecipientFromSenderListByTag,
              hvalid, hu, hs, hany, List.filter]
          · have hany2 : (customFields.any
                (fun p => fieldVerifyFails subscribe contact p.1 p.2)) = false := by
              simpa using hany
            simp [subscribeOrUnsubscribeRecipientFromSenderListByTag,
              hvalid, hu, hs, hany2, List.filter]
  · intro contact hu hs
    constructor
    · intro hex
      have hany : (customFields.any
          (fun p => fieldVerifyFails subscribe contact p.1 p.2)) = true := by
        rw [List.any_eq_true]
        obtain ⟨p, hp, hf⟩ := hex
        exact ⟨p, hp, hf⟩
      simp [subscribeOrUnsubscribeRecipientFromSenderListByTag,
        hvalid, hu, hs, hany]
    · intro hall
      have hany : (customFields.any
          (fun p => fieldVerifyFails subscribe contact p.1 p.2)) = false := by
        rw [List.any_eq_false]
        intro p hp
        simp [hall p hp]
      simp [subscribeOrUnsubscribeRecipientFromSenderListByTag,
        hvalid, hu, hs, hany]
  · intro contact f v
    cases hcv : currentFieldValue contact f with
    | none => simp [fieldVerifyFails, hcv]
    | some y => cases y <;> simp [fieldVerifyFails, hcv]
  · intro contact f b
    unfold fieldVerifyFails
    simp only [if_true, Bool.not_eq_false']
    exact beq_some_bool_iff _ _

def wContact : Contact :=
  { custom_fields := some [("weekly_newsletter", JsValue.bool false)] }

def wSubOracle : SubOracle :=
  { upsertResult := .ok (), searchResult := .ok (some wContact) }

theorem subscribe_single_upsert_and_verifies_witness :
    ((subscribeOrUnsubscribeRecipientFromSenderListByTag "a@b.c" "L7"
        [("weekly_newsletter", JsValue.bool true)] true wSubOracle).2.filter
          (fun r => r matches .contactsUpsert _ _ _) =
      [Request.contactsUpsert "a@b.c"
        (if true then some ["L7"] else none)
        (if true then [("weekly_newsletter", JsValue.bool true)]
         else clearedFields [("weekly_newsletter", JsValue.bool true)])]) ∧
    (subscribeOrUnsubscribeRecipientFromSenderListByTag "a@b.c" "L7"
        [("weekly_newsletter", JsValue.bool true)] true wSubOracle).1 =
      .error "Failed to update recipient fields" := by
  constructor
  · exact (subscribe_single_upsert_and_verifies "a@b.c" "L7"
      [("weekly_newsletter", JsValue.bool true)] true wSubOracle rfl).1
  · refine ((subscribe_single_upsert_and_verifies "a@b.c" "L7"
      [("weekly_newsletter", JsValue.bool true)] true wSubOracle rfl).2.1
        wContact rfl rfl).1 ?_
    exact ⟨("weekly_newsletter", JsValue.bool true), List.Mem.head _, rfl⟩

/-! ### C5 -/

/-- Number of list-creation requests in a trace. -/
def countCreates (reqs : List Request) : Nat :=
  (reqs.filter (fun r => r matches .listCreate _)).length

/-- C5: absent concurrent invocations — stated as stability of the
name-lookup across the remote view sequence, so that nothing but this
caller changes the outcome of the search — two sequential
`ensureListExistsByName` calls for the same name issue at most one
list-creation request in total and both return the same list; and when the
list is absent, the operation creates it, waits the fixed settle delay,
re-queries, and fails with `List creation failed after retry: <listName>`
if the list is still not visible. -/
theorem ensureListExistsByName_idempotent :
    (∀ (env : Nat → List SgList) (name : String) (k : Nat) (l : SgList),
      (∀ i j : Nat, ∀ al : SgList, i ≤ j →
        findListByName (env i) name = some al →
        findListByName (env j) name = some al) →
      (ensureListExistsByName env name k).result = .ok l →
      (ensureListExistsByName env name
          ((ensureListExistsByName env name k).next)).result = .ok l ∧
      countCreates (ensureListExistsByName env name k).requests +
        countCreates (ensureListExistsByName env name
          ((ensureListExistsByName env name k).next)).requests ≤ 1) ∧
    (∀ (env : Nat → List SgList) (name : String) (k : Nat),
      findListByName (env k) name = none →
      findListByName (env (k + 1)) name = none →
      (ensureListExistsByName env name k).result =
        .error ("List creation failed after retry: " ++ name)) := by
  constructor
  · intro env name k l hstable hok
    cases h0 : findListByName (env k) name with
    | some l0 =>
      have hl0 : l0 = l := by
        simp [ensureListExistsByName, h0] at hok
        exact hok
      subst hl0
      have h1 : findListByName (env (k + 1)) name = some l0 :=
        hstable k (k + 1) l0 (by omega) h0
      simp [ensureListExistsByName, h0, h1, countCreates, List.filter]
    | none =>
      cases h1 : findListByName (env (k + 1)) name with
      | none => simp [ensureListExistsByName, h0, h1] at hok
      | some l1 =>
        have hl1 : l1 = l := by
          simp [ensureListExistsByName, h0, h1] at hok
          exact hok
        subst hl1
        have h2 : findListByName (env (k + 2)) name = some l1 :=
          hstable (k + 1) (k + 2) l1 (by omega) h1
        simp [ensureListExistsByName, h0, h1, h2, countCreates, List.filter]
  · intro env name k h0 h1
    simp [ensureListExistsByName, h0, h1]

/-- A remote view sequence in which the list is absent at fetch 0 and the
creation is visible from fetch 1 on. -/
def envWitness : Nat → List SgList :=
  fun i => if i = 0 then [] else [{ id := 1, name := "n" }]

lemma envWitness_stable :
    ∀ i j : Nat, ∀ al : SgList, i ≤ j →
      findListByName (envWitness i) "n" = some al →
      findListByName (envWitness j) "n" = some al := by
  intro i j al hij h
  cases i with
  | zero => simp [envWitness, findListByName] at h
  | succ m =>
    have hi : m + 1 ≠ 0 := by omega
    have hj : j ≠ 0 := by omega
    rw [envWitness] at h
    rw [envWitness]
    simp only [hi, if_false] at h
    simp only [hj, if_false]
    exact h

theorem ensureListExistsByName_idempotent_witness :
    ((ensureListExistsByName envWitness "n"
        ((ensureListExistsByName envWitness "n" 0).next)).result =
      .ok { id := 1, name := "n" } ∧
     countCreates (ensureListExistsByName envWitness "n" 0).requests +
       countCreates (ensureListExistsByName envWitness "n"
         ((ensureListExistsByName envWitness "n" 0).next)).requests ≤ 1) ∧
    (ensureListExistsByName (fun _ => []) "n" 0).result =
      .error ("List creation failed after retry: " ++ "n") := by
  constructor
  · exact ensureListExistsByName_idempotent.1 envWitness "n" 0
      { id := 1, name := "n" } envWitness_stable rfl
  · exact ensureListExistsByName_idempotent.2 (fun _ => []) "n" 0 rfl rfl
